import Mathlib

/-!
Verification of the search pipeline of `src/app/services/search.service.ts`
(steam-content-lookup).

The service is embedded shallowly: each method becomes a pure Lean function
that returns the ordered trace of emitted `SearchEvent`s and issued remote
calls, together with its result.  The HTTP transport is an oracle
(`SteamAPI`) mapping each request's distinguishing parameter to the fields of
the JSON response that the service actually reads; the owned-games payload
and the transport error for the owned-games call are opaque type parameters
`G` and `E`, matching the service which treats them as passthrough values.
-/

/-- The search states enum (`ESearchStates`). -/
inductive ESearchStates
  | Loading
  | Success
  | Failure
deriving DecidableEq

/-- The search types enum (`ESearchTypes`). -/
inductive ESearchTypes
  | SteamIDRetrieval
  | SteamIDValidation
  | SteamLibraryFetch
deriving DecidableEq

/-- The Steam ID types enum (`ESteamIDTypes`). -/
inductive ESteamIDTypes
  | ID64
  | ProfileURL
  | ProfilePermalink
  | Nickname
deriving DecidableEq

/-- The errors that can escape `getSteamID`: the four typed error classes of
the repository (each carries the offending search term, which the TS classes
embed in their message), plus `urlTypeError`, modelling the untyped
`TypeError` thrown by the `new URL(searchTerm)` constructor on an
unparsable input -- that one is not part of the repository's error
taxonomy (it does not extend `BaseError`). -/
inductive ResolutionError
  | invalidSteamID64 (searchTerm : String)
  | invalidProfileURL (searchTerm : String)
  | invalidPermalink (searchTerm : String)
  | invalidNickname (searchTerm : String)
  | urlTypeError (searchTerm : String)
deriving DecidableEq

/-- Whether an error belongs to the repository's typed taxonomy
(subclasses of `BaseError`). -/
def isTypedError : ResolutionError → Bool
  | .urlTypeError _ => false
  | _ => true

/-!
The URL-shape test.  `getSteamID` evaluates
`searchTerm.match(regex) !== null` with

  `/(http(s)?:\/\/.)?(www\.)?[-a-zA-Z0-9@:%._\+~#=]{2,256}\.[a-z]{2,6}\b([-a-zA-Z0-9@:%_\+.~#?&\/\/=]*)/g`

which is true iff the regex matches some substring.  The trailing group can
always match the empty string, so a match exists iff at some start position
one can read: an optional `http://`/`https://` followed by one arbitrary
character, an optional `www.`, 2..256 characters of the first class, a
literal dot, 2..6 lowercase letters, and a word boundary.  The matcher
below decides exactly that existence.
-/

/-- Characters of the class `[-a-zA-Z0-9@:%._\+~#=]`. -/
def classAChar (c : Char) : Bool :=
  c.isAlpha || c.isDigit || c = '-' || c = '@' || c = ':' || c = '%' ||
  c = '.' || c = '_' || c = '+' || c = '~' || c = '#' || c = '='

/-- Lowercase ASCII letter, the class `[a-z]`. -/
def lowerChar (c : Char) : Bool :=
  'a' ≤ c && c ≤ 'z'

/-- JavaScript regex word character `[A-Za-z0-9_]`, used for `\b`. -/
def wordChar (c : Char) : Bool :=
  c.isAlpha || c.isDigit || c = '_'

/-- A `\b` word boundary holds after a word character iff the input ends or
the next character is not a word character. -/
def boundaryOK : List Char → Bool
  | [] => true
  | c :: _ => !wordChar c

/-- Match `[a-z]{2,6}\b`: `fuel` lowercase letters may still be consumed,
`got` have been consumed so far. -/
def tldGo : Nat → Nat → List Char → Bool
  | 0, got, cs => decide (2 ≤ got) && boundaryOK cs
  | fuel + 1, got, cs =>
    (decide (2 ≤ got) && boundaryOK cs) ||
    (match cs with
     | c :: rest => lowerChar c && tldGo fuel (got + 1) rest
     | [] => false)

/-- Match a literal dot followed by `[a-z]{2,6}\b`. -/
def dotThenTld : List Char → Bool
  | '.' :: rest => tldGo 6 0 rest
  | _ => false

/-- Match `[-a-zA-Z0-9@:%._\+~#=]{lo..fuel+got}` followed by
`\.[a-z]{2,6}\b`, where `got` characters of the class have been consumed. -/
def domGo : Nat → Nat → List Char → Bool
  | 0, got, cs => decide (2 ≤ got) && dotThenTld cs
  | fuel + 1, got, cs =>
    (decide (2 ≤ got) && dotThenTld cs) ||
    (match cs with
     | c :: rest => classAChar c && domGo fuel (got + 1) rest
     | [] => false)

/-- Match the mandatory core of the URL regex at the head of the input. -/
def coreMatch (cs : List Char) : Bool :=
  domGo 256 0 cs

/-- The remainders allowed by the optional group `(www\.)?`. -/
def wwwOpts (cs : List Char) : List (List Char) :=
  match cs with
  | 'w' :: 'w' :: 'w' :: '.' :: rest => [cs, rest]
  | _ => [cs]

/-- The remainders allowed by the optional group `(http(s)?:\/\/.)?`
(the final `.` of the group consumes one arbitrary character). -/
def schemeOpts (cs : List Char) : List (List Char) :=
  [cs] ++
  (match cs with
   | 'h' :: 't' :: 't' :: 'p' :: ':' :: '/' :: '/' :: _ :: rest => [rest]
   | _ => []) ++
  (match cs with
   | 'h' :: 't' :: 't' :: 'p' :: 's' :: ':' :: '/' :: '/' :: _ :: rest => [rest]
   | _ => [])

/-- Match the whole URL regex at the head of the input. -/
def matchAt (cs : List Char) : Bool :=
  (schemeOpts cs).any fun cs1 => (wwwOpts cs1).any fun cs2 => coreMatch cs2

/-- Match the URL regex at some start position. -/
def matchFrom : List Char → Bool
  | [] => matchAt []
  | c :: rest => matchAt (c :: rest) || matchFrom rest

/-- The test `searchTerm.match(regex) !== null` of `getSteamID`. -/
def matchesUrlShape (s : String) : Bool :=
  matchFrom s.toList

/-!
The `URL` constructor.  `getSteamID` runs `new URL(searchTerm)` and reads
`url.hostname` and `url.pathname`.  The model below covers the platform
constructor on the inputs this service can meet: it succeeds exactly on
inputs carrying an explicit `http://` or `https://` scheme with a non-empty
host (on anything else -- in particular any scheme-less term -- the real
constructor throws a `TypeError`), lowercases the host, stops the host at
`/ ? # :`, skips a port, and returns the path up to `?` or `#`, defaulting
to `/`.
-/

/-- The two fields of the parsed URL that the service reads. -/
structure JSURL where
  hostname : String
  pathname : String
deriving DecidableEq

/-- Characters terminating the host part. -/
def hostEnd (c : Char) : Bool :=
  c = '/' || c = '?' || c = '#' || c = ':'

/-- Characters terminating the path part. -/
def pathEnd (c : Char) : Bool :=
  c = '?' || c = '#'

/-- Model of `new URL`: `none` models the thrown `TypeError`. -/
def parseURL (s : String) : Option JSURL :=
  match
    (match s.toList with
     | 'h' :: 't' :: 't' :: 'p' :: ':' :: '/' :: '/' :: rest => some rest
     | 'h' :: 't' :: 't' :: 'p' :: 's' :: ':' :: '/' :: '/' :: rest => some rest
     | _ => none) with
  | none => none
  | some rest =>
    let host := rest.takeWhile fun c => !hostEnd c
    if host.isEmpty then none
    else
      let tail := rest.drop host.length
      let tail2 :=
        match tail with
        | ':' :: t => t.dropWhile fun c => c ≠ '/' && c ≠ '?' && c ≠ '#'
        | _ => tail
      let path := tail2.takeWhile fun c => !pathEnd c
      some
        ⟨String.mk (host.map Char.toLower),
         if path.isEmpty then "/" else String.mk path⟩

/-- `String.prototype.split('/')`: split at every slash, keeping empty
segments. -/
def splitOnSlash : List Char → List (List Char)
  | [] => [[]]
  | '/' :: rest => [] :: splitOnSlash rest
  | c :: rest =>
    match splitOnSlash rest with
    | seg :: segs => (c :: seg) :: segs
    | [] => [[c]]

/-- The route computation of `getSteamID`:
`url.pathname.split('/').filter(str => str.length > 0)`. -/
def nonEmptySegments (p : String) : List String :=
  ((splitOnSlash p.toList).map String.mk).filter fun seg => 0 < seg.length

/-- Substring test, modelling `String.prototype.includes`. -/
def containsSub (needle : List Char) : List Char → Bool
  | [] => needle.isEmpty
  | c :: rest => needle.isPrefixOf (c :: rest) || containsSub needle rest

/-- Models JavaScript array indexing `route[i]` followed by template
interpolation into a request URL: an out-of-range access yields `undefined`,
which interpolates as the string "undefined". -/
def jsIndex (l : List String) (i : Nat) : String :=
  l.getD i ("undefined")

/-- Modelled from the spec: the helper `Validator.isNumeric`
(`src/app/helpers/validator.ts`) is imported by the service but its file is
not under `src/`.  The spec says "If the term is entirely numeric digits ->
NumericID", so the test holds iff every character is a decimal digit. -/
def isNumeric (s : String) : Bool :=
  s.toList.all Char.isDigit

/-!
Events, remote calls and traces.
-/

/-- The `details` payload of an `ISearchResult` at the five emission sites
of the service: a loading meta, an identity success (`result` is the value
`getSteamID` resolved with -- possibly `undefined`, hence `Option` -- and
`meta.input` the original search term), an identity failure, a library-fetch
success carrying the games payload, and a library-fetch failure carrying the
transport error. -/
inductive EventDetails (G E : Type)
  | loading (input : String) (idType : ESteamIDTypes)
  | idSuccess (result : Option String) (input : String)
  | idFailure (error : ResolutionError) (input : String)
  | libSuccess (result : G)
  | libFailure (error : E)
deriving DecidableEq

/-- A search event (`ISearchResult`) as emitted on `searchEvent`. -/
structure SearchEvent (G E : Type) where
  state : ESearchStates
  type : ESearchTypes
  details : EventDetails G E
deriving DecidableEq

/-- The three HTTP GET requests the service can issue, keyed by the
parameter interpolated into the request URL. -/
inductive RemoteCall
  | resolveVanityURL (vanityurl : String)
  | getPlayerSummaries (steamids : String)
  | getOwnedGames (steamid : Option String)
deriving DecidableEq

/-- One observable step of the service: an event emission or an issued
remote call, in program order. -/
inductive TraceItem (G E : Type)
  | event (e : SearchEvent G E)
  | call (c : RemoteCall)
deriving DecidableEq

/-- The transport oracle: for each request, the part of the JSON response
the service reads.  `resolveVanity` is `res.response.steamid` (`none`
models an absent field), `playerSummaries` is
`validity.response.players.length`, and `ownedGames` is the owned-games
response (`Except.error` models a rejected HTTP promise; the identity-phase
responses are modelled as delivered, transport failures of those calls are
outside the claims). -/
structure SteamAPI (G E : Type) where
  resolveVanity : String → Option String
  playerSummaries : String → Nat
  ownedGames : Option String → Except E G

/-- Outcome of the promise returned by `start`: `resolve()` or `reject()`,
both payload-free. -/
inductive StartOutcome
  | resolved
  | rejected
deriving DecidableEq

/-!
The service methods.
-/

/-- `getSteamIDFromName`: emits the Loading event of type
`SteamIDRetrieval`, issues the `ResolveVanityURL` request, and returns
`res.response.steamid`. -/
def getSteamIDFromName {G E : Type} (api : SteamAPI G E) (input : String)
    (idType : ESteamIDTypes) : List (TraceItem G E) × Option String :=
  ([.event ⟨.Loading, .SteamIDRetrieval, .loading input idType⟩,
    .call (.resolveVanityURL input)],
   api.resolveVanity input)

/-- `isValidID`: emits the Loading event of type `SteamIDValidation`,
issues the `GetPlayerSummaries` request, and returns
`validity.response.players.length`. -/
def isValidID {G E : Type} (api : SteamAPI G E) (id : String)
    (idType : ESteamIDTypes) : List (TraceItem G E) × Nat :=
  ([.event ⟨.Loading, .SteamIDValidation, .loading id idType⟩,
    .call (.getPlayerSummaries id)],
   api.playerSummaries id)

/-- `getOwnedGames`: issues the `GetOwnedGames` request (no event of its
own) and returns the response. -/
def getOwnedGames {G E : Type} (api : SteamAPI G E) (steamId : Option String) :
    List (TraceItem G E) × Except E G :=
  ([.call (.getOwnedGames steamId)], api.ownedGames steamId)

/-- The JavaScript truthiness test `if (steamid)` on
`res.response.steamid`, followed by `return steamid` or `throw err`:
a present, non-empty steamid is returned, anything else raises `err`. -/
def steamidResult (steamid : Option String) (err : ResolutionError) :
    Except ResolutionError (Option String) :=
  match steamid with
  | some id => if id = "" then .error err else .ok (some id)
  | none => .error err

/-- `getSteamID`: the classification-and-resolution stage.  The result is
`Except.error` for a thrown error and `Except.ok` for a resolved value;
`Except.ok none` models the implicit `return undefined` of the TypeScript
function on the fall-through paths (empty input, URL-shaped input whose
host is not the community domain or whose first route segment is neither
"id" nor "profiles"). -/
def getSteamID {G E : Type} (api : SteamAPI G E) (searchTerm : String) :
    List (TraceItem G E) × Except ResolutionError (Option String) :=
  if 0 < searchTerm.length then
    if isNumeric searchTerm then
      if 0 < (isValidID api searchTerm .ID64).2 then
        ((isValidID api searchTerm .ID64).1, .ok (some searchTerm))
      else
        ((isValidID api searchTerm .ID64).1, .error (.invalidSteamID64 searchTerm))
    else
      if matchesUrlShape searchTerm then
        match parseURL searchTerm with
        | none => ([], .error (.urlTypeError searchTerm))
        | some url =>
          if containsSub ("steamcommunity").toList url.hostname.toList then
            if jsIndex (nonEmptySegments url.pathname) 0 = "id" then
              ((getSteamIDFromName api (jsIndex (nonEmptySegments url.pathname) 1) .ProfileURL).1,
               steamidResult
                 (getSteamIDFromName api (jsIndex (nonEmptySegments url.pathname) 1) .ProfileURL).2
                 (.invalidProfileURL searchTerm))
            else if jsIndex (nonEmptySegments url.pathname) 0 = "profiles" then
              if 0 < (isValidID api (jsIndex (nonEmptySegments url.pathname) 1) .ProfilePermalink).2 then
                ((isValidID api (jsIndex (nonEmptySegments url.pathname) 1) .ProfilePermalink).1,
                 .ok (some (jsIndex (nonEmptySegments url.pathname) 1)))
              else
                ((isValidID api (jsIndex (nonEmptySegments url.pathname) 1) .ProfilePermalink).1,
                 .error (.invalidPermalink searchTerm))
            else ([], .ok none)
          else ([], .ok none)
      else
        ((getSteamIDFromName api searchTerm .Nickname).1,
         steamidResult (getSteamIDFromName api searchTerm .Nickname).2
           (.invalidNickname searchTerm))
  else ([], .ok none)

/-- `start`: runs `getSteamID`; on resolution emits the
`Success`/`SteamIDRetrieval` event only when `searchActivated` is truthy,
then runs `getOwnedGames` on the resolved value and emits the
`SteamLibraryFetch` event unconditionally, resolving or rejecting with it;
on a thrown resolution error emits the `Failure`/`SteamIDRetrieval` event
only when `searchActivated` is truthy, and rejects. -/
def start {G E : Type} (api : SteamAPI G E) (searchActivated : Bool)
    (searchTerm : String) : List (TraceItem G E) × StartOutcome :=
  match (getSteamID api searchTerm).2 with
  | .ok result =>
    match (getOwnedGames api result).2 with
    | .ok games =>
      ((getSteamID api searchTerm).1
        ++ (if searchActivated then
              [.event ⟨.Success, .SteamIDRetrieval, .idSuccess result searchTerm⟩]
            else [])
        ++ (getOwnedGames api result).1
        ++ [.event ⟨.Success, .SteamLibraryFetch, .libSuccess games⟩],
       .resolved)
    | .error err =>
      ((getSteamID api searchTerm).1
        ++ (if searchActivated then
              [.event ⟨.Success, .SteamIDRetrieval, .idSuccess result searchTerm⟩]
            else [])
        ++ (getOwnedGames api result).1
        ++ [.event ⟨.Failure, .SteamLibraryFetch, .libFailure err⟩],
       .rejected)
  | .error e =>
    ((getSteamID api searchTerm).1
      ++ (if searchActivated then
            [.event ⟨.Failure, .SteamIDRetrieval, .idFailure e searchTerm⟩]
          else []),
     .rejected)

/-- The per-service mutable state: the `searchActivated` field is declared
`boolean` but never assigned by the service (the constructor initializes
only `searchEvent`), so before any external assignment it is `undefined`;
`none` models that. -/
structure SearchServiceState where
  searchActivated : Option Bool
deriving DecidableEq

/-- The state the constructor leaves behind: `searchActivated` unassigned. -/
def constructorInit : SearchServiceState :=
  ⟨none⟩

/-- JavaScript truthiness of the possibly-`undefined` boolean field:
`undefined` is falsy. -/
def jsTruthy (b : Option Bool) : Bool :=
  b.getD false

/-- `start` as invoked on a service instance: the activation flag read from
the instance state. -/
def startService {G E : Type} (st : SearchServiceState) (api : SteamAPI G E)
    (searchTerm : String) : List (TraceItem G E) × StartOutcome :=
  start api (jsTruthy st.searchActivated) searchTerm

deriving instance DecidableEq for Except

/-!
Observables used by the stated properties.
-/

/-- The events gated by the activation flag: `Success` or `Failure` of type
`SteamIDRetrieval` (the Loading events of that type are not gated). -/
def isGatedIdEvent {G E : Type} : TraceItem G E → Bool
  | .event ⟨.Success, .SteamIDRetrieval, _⟩ => true
  | .event ⟨.Failure, .SteamIDRetrieval, _⟩ => true
  | _ => false

/-- The remote calls of a trace, in order. -/
def traceCalls {G E : Type} (t : List (TraceItem G E)) : List RemoteCall :=
  t.filterMap fun it =>
    match it with
    | .call c => some c
    | .event _ => none

/-- The trace items producible inside `getSteamID`: an identity-phase
Loading event or an identity-phase remote call. -/
def isIdLoadItem {G E : Type} : TraceItem G E → Bool
  | .event ⟨.Loading, .SteamIDRetrieval, .loading _ _⟩ => true
  | .event ⟨.Loading, .SteamIDValidation, .loading _ _⟩ => true
  | .call (.resolveVanityURL _) => true
  | .call (.getPlayerSummaries _) => true
  | _ => false

/-- Events of the resource-fetch phase. -/
def isLibFetchEvent {G E : Type} : TraceItem G E → Bool
  | .event ⟨_, .SteamLibraryFetch, _⟩ => true
  | _ => false

/-- Trace items whose payload carries a resolution error. -/
def carriesResolutionError {G E : Type} : TraceItem G E → Bool
  | .event ⟨_, _, .idFailure _ _⟩ => true
  | _ => false

/-- Trace items issuing the owned-games request. -/
def hasOwnedGamesCall {G E : Type} : TraceItem G E → Bool
  | .call (.getOwnedGames _) => true
  | _ => false

/-- A concrete transport oracle on which every request succeeds: vanity
resolution returns the steamid "42", every player lookup finds one player,
and the owned-games call returns the payload `7`. -/
def apiOne : SteamAPI Nat Unit :=
  ⟨fun _ => some ("42"), fun _ => 1, fun _ => .ok 7⟩

/-- A concrete transport oracle on which every identity request comes back
empty: no steamid, no players; the owned-games call fails. -/
def apiZero : SteamAPI Nat Unit :=
  ⟨fun _ => none, fun _ => 0, fun _ => .error ()⟩

/-!
Trace lemmas shared by the claims.
-/

/-- Every trace item produced inside `getSteamID` is an identity-phase
Loading event or an identity-phase remote call. -/
theorem getSteamID_items {G E : Type} (api : SteamAPI G E) (s : String) :
    ((getSteamID api s).1).all isIdLoadItem = true := by
  unfold getSteamID
  repeat' split
  all_goals simp [isValidID, getSteamIDFromName, isIdLoadItem]

/-- Identity-phase Loading items are not gated events, not resource-fetch
events, carry no resolution error, and are not the owned-games call. -/
theorem idLoadItem_props {G E : Type} (it : TraceItem G E)
    (h : isIdLoadItem it = true) :
    isGatedIdEvent it = false ∧ isLibFetchEvent it = false ∧
    carriesResolutionError it = false ∧ hasOwnedGamesCall it = false := by
  cases it with
  | event e =>
    obtain ⟨st, ty, d⟩ := e
    cases st <;> cases ty <;> cases d <;>
      simp_all [isIdLoadItem, isGatedIdEvent, isLibFetchEvent,
        carriesResolutionError, hasOwnedGamesCall]
  | call c =>
    cases c <;>
      simp_all [isIdLoadItem, isGatedIdEvent, isLibFetchEvent,
        carriesResolutionError, hasOwnedGamesCall]

/-- Lift a pointwise property of identity-phase Loading items to the whole
`getSteamID` trace. -/
theorem getSteamID_all_of_idLoad {G E : Type} (api : SteamAPI G E)
    (s : String) (p : TraceItem G E → Bool)
    (hp : ∀ it, isIdLoadItem it = true → p it = true) :
    ((getSteamID api s).1).all p = true := by
  apply List.all_eq_true.mpr
  intro a ha
  exact hp a (List.all_eq_true.mp (getSteamID_items api s) a ha)

/-- A filter that keeps every identity-phase Loading item keeps the whole
`getSteamID` trace. -/
theorem getSteamID_filter_keep {G E : Type} (api : SteamAPI G E)
    (s : String) (p : TraceItem G E → Bool)
    (hp : ∀ it, isIdLoadItem it = true → p it = true) :
    ((getSteamID api s).1).filter p = (getSteamID api s).1 := by
  rw [List.filter_eq_self]
  intro a ha
  exact hp a (List.all_eq_true.mp (getSteamID_items api s) a ha)

/-- A filter that drops every identity-phase Loading item drops the whole
`getSteamID` trace. -/
theorem getSteamID_filter_drop {G E : Type} (api : SteamAPI G E)
    (s : String) (p : TraceItem G E → Bool)
    (hp : ∀ it, isIdLoadItem it = true → p it = false) :
    ((getSteamID api s).1).filter p = [] := by
  rw [List.filter_eq_nil_iff]
  intro a ha
  simp [hp a (List.all_eq_true.mp (getSteamID_items api s) a ha)]

/-- Remote calls are never gated events. -/
theorem isGatedIdEvent_call {G E : Type} (c : RemoteCall) :
    isGatedIdEvent (G := G) (E := E) (.call c) = false := rfl

/-- Resource-fetch events are never gated. -/
theorem isGatedIdEvent_lib {G E : Type} (st : ESearchStates)
    (d : EventDetails G E) :
    isGatedIdEvent (.event ⟨st, .SteamLibraryFetch, d⟩) = false := by
  cases st <;> rfl

/-- The identity Success event is gated. -/
theorem isGatedIdEvent_idSuccess {G E : Type} (d : EventDetails G E) :
    isGatedIdEvent (.event ⟨.Success, .SteamIDRetrieval, d⟩) = true := rfl

/-- The identity Failure event is gated. -/
theorem isGatedIdEvent_idFailure {G E : Type} (d : EventDetails G E) :
    isGatedIdEvent (.event ⟨.Failure, .SteamIDRetrieval, d⟩) = true := rfl

/-- The deactivated trace is the activated trace with exactly the gated
identity-phase Success/Failure events removed. -/
theorem start_trace_flagFilter {G E : Type} (api : SteamAPI G E)
    (s : String) :
    (start api false s).1 =
      ((start api true s).1).filter fun it => !isGatedIdEvent it := by
  have hkeep := getSteamID_filter_keep api s (fun it => !isGatedIdEvent it)
    (fun it h => by simp [(idLoadItem_props it h).1])
  cases hg : (getSteamID api s).2 with
  | ok r =>
    cases hf : api.ownedGames r with
    | ok g =>
      simp [start, hg, hf, getOwnedGames, List.filter_append, hkeep,
        isGatedIdEvent_call, isGatedIdEvent_lib, isGatedIdEvent_idSuccess,
        isGatedIdEvent_idFailure]
    | error err =>
      simp [start, hg, hf, getOwnedGames, List.filter_append, hkeep,
        isGatedIdEvent_call, isGatedIdEvent_lib, isGatedIdEvent_idSuccess,
        isGatedIdEvent_idFailure]
  | error e =>
    simp [start, hg, List.filter_append, hkeep,
      isGatedIdEvent_call, isGatedIdEvent_lib, isGatedIdEvent_idSuccess,
      isGatedIdEvent_idFailure]

/-- The sequence of issued remote calls does not depend on the activation
flag. -/
theorem start_calls_flag {G E : Type} (api : SteamAPI G E) (a b : Bool)
    (s : String) :
    traceCalls (start api a s).1 = traceCalls (start api b s).1 := by
  cases hg : (getSteamID api s).2 with
  | ok r =>
    cases hf : api.ownedGames r with
    | ok g =>
      cases a <;> cases b <;>
        simp [start, hg, hf, getOwnedGames, traceCalls, List.filterMap_append]
    | error err =>
      cases a <;> cases b <;>
        simp [start, hg, hf, getOwnedGames, traceCalls, List.filterMap_append]
  | error e =>
    cases a <;> cases b <;>
      simp [start, hg, traceCalls, List.filterMap_append]

/-- With the flag false, no gated identity event appears in the trace. -/
theorem start_false_not_gated {G E : Type} (api : SteamAPI G E)
    (s : String) :
    ((start api false s).1).all (fun it => !isGatedIdEvent it) = true := by
  rw [start_trace_flagFilter]
  apply List.all_eq_true.mpr
  intro a ha
  exact (List.mem_filter.mp ha).2

/-!
The claims.
-/

/-- C1: for every search term and every outcome of the identity-resolution
stage, when the activation flag is false the Success/Failure events of the
Identity-Retrieval phase are not emitted (the deactivated trace is exactly
the activated trace with those gated events filtered out), while every
other trace item -- the Loading events emitted before the identity remote
calls and the ResourceFetch-phase Success/Failure events -- survives, the
issued remote calls are identical under both flag values, and no gated
event appears in the deactivated trace. -/
theorem C1_activation_flag_gates_only_identity_events {G E : Type}
    (api : SteamAPI G E) (s : String) :
    (start api false s).1 =
      ((start api true s).1).filter (fun it => !isGatedIdEvent it)
    ∧ traceCalls (start api false s).1 = traceCalls (start api true s).1
    ∧ ((start api false s).1).all (fun it => !isGatedIdEvent it) = true :=
  ⟨start_trace_flagFilter api s, start_calls_flag api false true s,
   start_false_not_gated api s⟩

/-- C2 (counter-evidence): contrary to the claim that the empty input emits
no event and issues no remote call, `start ""` resolves `getSteamID` with
no canonical ID and then proceeds: with the flag off it still issues the
owned-games call on the undefined ID and emits the ResourceFetch Success
event, and with the flag on it additionally emits a Success
Identity-Retrieval event with an absent result; `start` settles with the
fetch outcome. -/
theorem C2_empty_input_not_silent :
    start apiOne false "" =
      ([.call (.getOwnedGames none),
        .event ⟨.Success, .SteamLibraryFetch, .libSuccess 7⟩],
       .resolved)
    ∧ start apiOne true "" =
      ([.event ⟨.Success, .SteamIDRetrieval, .idSuccess none ""⟩,
        .call (.getOwnedGames none),
        .event ⟨.Success, .SteamLibraryFetch, .libSuccess 7⟩],
       .resolved) := by
  constructor <;> decide

/-- C3 (counter-evidence): contrary to the claim that classification is
scheme-optional, the scheme-less term "steamcommunity.com/id/gaben" does
match the URL-shape regex, but the URL constructor then throws, so no
vanity-resolution call is issued at all and the pipeline rejects with an
error outside the typed taxonomy. -/
theorem C3_schemeless_community_url_untyped_failure :
    matchesUrlShape ("steamcommunity.com/id/gaben") = true
    ∧ getSteamID apiOne "steamcommunity.com/id/gaben" =
        ([], .error (.urlTypeError ("steamcommunity.com/id/gaben")))
    ∧ start apiOne true "steamcommunity.com/id/gaben" =
        ([.event ⟨.Failure, .SteamIDRetrieval,
            .idFailure (.urlTypeError ("steamcommunity.com/id/gaben"))
              ("steamcommunity.com/id/gaben")⟩],
         .rejected)
    ∧ isTypedError (.urlTypeError ("steamcommunity.com/id/gaben")) = false := by
  refine ⟨by decide, by decide, by decide, by decide⟩

/-- C4 (counter-evidence): on a URL-shaped term whose host is not the
community domain, and on one whose first route segment is neither "id" nor
"profiles", the resolution stage does return with neither result nor error
-- but, contrary to the claim that no further action is taken, the search
is not a no-op: `start` issues the owned-games call on the undefined ID,
emits the ResourceFetch event, and settles with the fetch outcome. -/
theorem C4_unrecognized_url_not_a_silent_no_op :
    getSteamID apiOne "http://example.com/ab" = ([], .ok none)
    ∧ start apiOne false "http://example.com/ab" =
        ([.call (.getOwnedGames none),
          .event ⟨.Success, .SteamLibraryFetch, .libSuccess 7⟩],
         .resolved)
    ∧ getSteamID apiOne "http://steamcommunity.com/groups/ab" = ([], .ok none)
    ∧ start apiOne false "http://steamcommunity.com/groups/ab" =
        ([.call (.getOwnedGames none),
          .event ⟨.Success, .SteamLibraryFetch, .libSuccess 7⟩],
         .resolved) := by
  refine ⟨by decide, by decide, by decide, by decide⟩

/-- C5: for every purely-numeric (non-empty, all-digits) input, the
resolution stage emits one validation Loading event, issues exactly one
validation-lookup call on the input itself, and returns the input unchanged
as the canonical ID when the response's player list is non-empty, failing
with the InvalidID64 error otherwise. -/
theorem C5_numeric_input_validation {G E : Type} (api : SteamAPI G E)
    (s : String) (h0 : 0 < s.length) (h1 : isNumeric s = true) :
    getSteamID api s =
      ([.event ⟨.Loading, .SteamIDValidation, .loading s .ID64⟩,
        .call (.getPlayerSummaries s)],
       if 0 < api.playerSummaries s then .ok (some s)
       else .error (.invalidSteamID64 s)) := by
  unfold getSteamID
  rw [if_pos h0, if_pos h1]
  by_cases h : 0 < api.playerSummaries s <;>
    simp [isValidID, h]

/-- C5 witness: the purely-numeric input "76" with a non-empty validation
response resolves to "76" itself after exactly one validation call. -/
theorem C5_numeric_input_validation_witness :
    getSteamID apiOne "76" =
      ([.event ⟨.Loading, .SteamIDValidation, .loading ("76") .ID64⟩,
        .call (.getPlayerSummaries ("76"))],
       .ok (some ("76"))) := by
  have h := C5_numeric_input_validation apiOne "76" (by decide) (by decide)
  rw [h]
  decide

/-- C6: for every input that reaches the CommunityURL-ById branch
(non-empty, non-numeric, URL-shaped, parsed with a host containing the
community-domain substring and first route segment "id"), vanity resolution
is called on the second path segment, the canonical ID is the returned
steamid when one is present and non-empty, and the stage fails with the
InvalidProfileURL error otherwise. -/
theorem C6_community_id_url_resolution {G E : Type} (api : SteamAPI G E)
    (s : String) (u : JSURL)
    (h0 : 0 < s.length) (h1 : isNumeric s = false)
    (h2 : matchesUrlShape s = true) (h3 : parseURL s = some u)
    (h4 : containsSub ("steamcommunity").toList u.hostname.toList = true)
    (h5 : jsIndex (nonEmptySegments u.pathname) 0 = "id") :
    getSteamID api s =
      ([.event ⟨.Loading, .SteamIDRetrieval,
          .loading (jsIndex (nonEmptySegments u.pathname) 1) .ProfileURL⟩,
        .call (.resolveVanityURL (jsIndex (nonEmptySegments u.pathname) 1))],
       steamidResult
         (api.resolveVanity (jsIndex (nonEmptySegments u.pathname) 1))
         (.invalidProfileURL s)) := by
  unfold getSteamID
  rw [if_pos h0, if_neg (by simp [h1]), if_pos h2, h3]
  dsimp only
  rw [if_pos h4, if_pos h5]
  simp [getSteamIDFromName]

/-- C6 witness: "http://steamcommunity.com/id/ab" resolves via vanity
resolution on "ab" to the returned steamid "42". -/
theorem C6_community_id_url_resolution_witness :
    getSteamID apiOne "http://steamcommunity.com/id/ab" =
      ([.event ⟨.Loading, .SteamIDRetrieval, .loading ("ab") .ProfileURL⟩,
        .call (.resolveVanityURL ("ab"))],
       .ok (some ("42"))) := by
  have h := C6_community_id_url_resolution apiOne
    "http://steamcommunity.com/id/ab" ⟨"steamcommunity.com", "/id/ab"⟩
    (by decide) (by decide) (by decide) (by decide) (by decide) (by decide)
  rw [h]
  decide

/-- C7: for every input that reaches the CommunityURL-ByProfile branch
(non-empty, non-numeric, URL-shaped, parsed with a host containing the
community-domain substring and first route segment "profiles"), the
validation lookup is called on the second path segment, which becomes the
canonical ID when the returned player list is non-empty, the stage failing
with the InvalidPermalink error otherwise. -/
theorem C7_community_profiles_url_resolution {G E : Type}
    (api : SteamAPI G E) (s : String) (u : JSURL)
    (h0 : 0 < s.length) (h1 : isNumeric s = false)
    (h2 : matchesUrlShape s = true) (h3 : parseURL s = some u)
    (h4 : containsSub ("steamcommunity").toList u.hostname.toList = true)
    (h5 : jsIndex (nonEmptySegments u.pathname) 0 = "profiles") :
    getSteamID api s =
      ([.event ⟨.Loading, .SteamIDValidation,
          .loading (jsIndex (nonEmptySegments u.pathname) 1) .ProfilePermalink⟩,
        .call (.getPlayerSummaries (jsIndex (nonEmptySegments u.pathname) 1))],
       if 0 < api.playerSummaries (jsIndex (nonEmptySegments u.pathname) 1) then
         .ok (some (jsIndex (nonEmptySegments u.pathname) 1))
       else .error (.invalidPermalink s)) := by
  have hid : ¬ jsIndex (nonEmptySegments u.pathname) 0 = "id" := by
    rw [h5]; decide
  unfold getSteamID
  rw [if_pos h0, if_neg (by simp [h1]), if_pos h2, h3]
  dsimp only
  rw [if_pos h4, if_neg hid, if_pos h5]
  by_cases h : 0 < api.playerSummaries (jsIndex (nonEmptySegments u.pathname) 1) <;>
    simp [isValidID, h]

/-- C7 witness: "http://steamcommunity.com/profiles/76" validates the
segment "76" and resolves to it. -/
theorem C7_community_profiles_url_resolution_witness :
    getSteamID apiOne "http://steamcommunity.com/profiles/76" =
      ([.event ⟨.Loading, .SteamIDValidation, .loading ("76") .ProfilePermalink⟩,
        .call (.getPlayerSummaries ("76"))],
       .ok (some ("76"))) := by
  have h := C7_community_profiles_url_resolution apiOne
    "http://steamcommunity.com/profiles/76" ⟨"steamcommunity.com", "/profiles/76"⟩
    (by decide) (by decide) (by decide) (by decide) (by decide) (by decide)
  rw [h]
  decide

/-- C8: for every non-empty input that is neither purely numeric nor
URL-shaped, vanity resolution is attempted with the whole term as-is; a
present, non-empty steamid becomes the canonical ID, and otherwise the
stage fails with the InvalidNickname error. -/
theorem C8_nickname_resolution {G E : Type} (api : SteamAPI G E)
    (s : String) (h0 : 0 < s.length) (h1 : isNumeric s = false)
    (h2 : matchesUrlShape s = false) :
    getSteamID api s =
      ([.event ⟨.Loading, .SteamIDRetrieval, .loading s .Nickname⟩,
        .call (.resolveVanityURL s)],
       steamidResult (api.resolveVanity s) (.invalidNickname s)) := by
  unfold getSteamID
  rw [if_pos h0, if_neg (by simp [h1]), if_neg (by simp [h2])]
  simp [getSteamIDFromName]

/-- C8 witness: the nickname "gaben" is attempted as-is, and an empty
steamid response fails with the InvalidNickname error. -/
theorem C8_nickname_resolution_witness :
    getSteamID apiZero "gaben" =
      ([.event ⟨.Loading, .SteamIDRetrieval, .loading ("gaben") .Nickname⟩,
        .call (.resolveVanityURL ("gaben"))],
       .error (.invalidNickname ("gaben"))) := by
  have h := C8_nickname_resolution apiZero "gaben"
    (by decide) (by decide) (by decide)
  rw [h]
  decide

/-- C9: whenever the resolution stage throws a typed error, `start` emits
at most the gated Failure event (only if the flag is true) and rejects with
no payload: the owned-games call is never issued, no ResourceFetch-phase
event is emitted, and the Failure event is the only trace item carrying the
typed error. -/
theorem C9_typed_error_aborts_pipeline {G E : Type} (api : SteamAPI G E)
    (act : Bool) (s : String) (e : ResolutionError)
    (he : (getSteamID api s).2 = .error e) (_ht : isTypedError e = true) :
    start api act s =
      ((getSteamID api s).1
        ++ (if act then
              [.event ⟨.Failure, .SteamIDRetrieval, .idFailure e s⟩]
            else []),
       .rejected)
    ∧ ((start api act s).1).all (fun it => !hasOwnedGamesCall it) = true
    ∧ ((start api act s).1).all (fun it => !isLibFetchEvent it) = true
    ∧ ((start api act s).1).filter carriesResolutionError =
        (if act then
           [.event ⟨.Failure, .SteamIDRetrieval, .idFailure e s⟩]
         else []) := by
  have heq : start api act s =
      ((getSteamID api s).1
        ++ (if act then
              [.event ⟨.Failure, .SteamIDRetrieval, .idFailure e s⟩]
            else []),
       .rejected) := by
    simp [start, he]
  refine ⟨heq, ?_, ?_, ?_⟩
  · rw [heq]
    simp only [List.all_append]
    rw [getSteamID_all_of_idLoad api s _
      (fun it h => by simp [(idLoadItem_props it h).2.2.2])]
    cases act <;> simp [hasOwnedGamesCall]
  · rw [heq]
    simp only [List.all_append]
    rw [getSteamID_all_of_idLoad api s _
      (fun it h => by simp [(idLoadItem_props it h).2.1])]
    cases act <;> simp [isLibFetchEvent]
  · rw [heq]
    simp only [List.filter_append]
    rw [getSteamID_filter_drop api s _
      (fun it h => (idLoadItem_props it h).2.2.1)]
    cases act <;> simp [carriesResolutionError]

/-- C9 witness: the numeric input "76" with an empty validation response
throws InvalidID64; with the flag on, `start` emits only the validation
Loading, the validation call and the gated Failure event, and rejects. -/
theorem C9_typed_error_aborts_pipeline_witness :
    start apiZero true "76" =
      ([.event ⟨.Loading, .SteamIDValidation, .loading ("76") .ID64⟩,
        .call (.getPlayerSummaries ("76")),
        .event ⟨.Failure, .SteamIDRetrieval,
          .idFailure (.invalidSteamID64 ("76")) ("76")⟩],
       .rejected) := by
  have h := C9_typed_error_aborts_pipeline apiZero true "76"
    (.invalidSteamID64 ("76")) (by decide) (by decide)
  rw [h.1]
  decide

/-- C10: the constructor leaves `searchActivated` unassigned, its JavaScript
truthiness is false, so a `start` invocation on the freshly constructed
service behaves exactly like one with the flag false and suppresses every
gated Identity-Retrieval Success/Failure event. -/
theorem C10_flag_defaults_to_suppression {G E : Type} (api : SteamAPI G E)
    (s : String) :
    jsTruthy constructorInit.searchActivated = false
    ∧ startService constructorInit api s = start api false s
    ∧ ((startService constructorInit api s).1).all
        (fun it => !isGatedIdEvent it) = true :=
  ⟨rfl, rfl, start_false_not_gated api s⟩
